import Mathlib

/-!
# Turbotise: a verification development for the expertise-engine pipeline

Shallow embedding of the three Python producers in this repository:

* `commit_analyzer.py` — one-shot (git commit hook) mode: reads the staged diff and
  commit message, sends them to the analysis backend, and appends one row to the
  canonical nine-column `expertise_log` table.
* `search.py` — watch mode (newer): reacts to file-change events, skips hidden files,
  sends file content to the backend with the five-field prompt, and flattens the
  five-field payload into the legacy three-column `expertise_log` table.
* `engine.py` — watch mode (older): no hidden-file check, legacy three-field prompt,
  legacy three-column table.

Python values coming back from `json.loads` are modelled by `JValue`; Python
exceptions by `PyExc` with `Except` for code that can raise; the analysis backend by
a function from the analyzed content to its observable response.  `json.loads` and
`json.dumps` are modelled by executable `json_loads` / `JValue.dumps` below, faithful
to the JSON grammar on every input appearing in this development (numbers are
restricted to integers, `\u` string escapes and the `ensure_ascii` transliteration of
non-ASCII characters are not modelled; no payload considered here uses them).
-/

namespace Turbotise

/-- A Python value produced by `json.loads`: JSON null, booleans, numbers, strings,
arrays (Python lists) and objects (Python dicts, kept as key/value lists in insertion
order; later duplicate keys shadow earlier ones, see `objLookup`). -/
inductive JValue where
  | jnull
  | jbool (b : Bool)
  | jnum (n : Int)
  | jstr (s : String)
  | jarr (elems : List JValue)
  | jobj (fields : List (String × JValue))

/-- Python exceptions that the embedded code can raise. -/
inductive PyExc where
  | attributeError
  | typeError
  | jsonDecodeError
  | ioError
  | sqliteError
deriving DecidableEq

/-- The opening-brace character, kept out of character literals. -/
def lbrace : Char := Char.ofNat 123

/-- The closing-brace character, kept out of character literals. -/
def rbrace : Char := Char.ofNat 125

/-- Dictionary lookup as Python sees a dict built by `json.loads`: when the JSON text
repeats a key, the later binding wins. -/
def objLookup : List (String × JValue) → String → Option JValue
  | [], _ => none
  | (k, v) :: rest, key =>
    match objLookup rest key with
    | some w => some w
    | none => if k = key then some v else none

/-- Python `d.get(key, default)`: on a dict it returns the stored value or the
default; on any non-dict value the attribute access raises `AttributeError`. -/
def pyGet (v : JValue) (key : String) (dflt : JValue) : Except PyExc JValue :=
  match v with
  | .jobj fs => .ok ((objLookup fs key).getD dflt)
  | _ => .error .attributeError

/-- Python `+` on values a JSON payload can contain: list and string concatenation,
integer addition (with bools counting as ints); every mixed case such as
`str + list` raises `TypeError`. -/
def pyAdd : JValue → JValue → Except PyExc JValue
  | .jarr a, .jarr b => .ok (.jarr (a ++ b))
  | .jstr a, .jstr b => .ok (.jstr (a ++ b))
  | .jnum a, .jnum b => .ok (.jnum (a + b))
  | .jbool a, .jnum b => .ok (.jnum ((if a then 1 else 0) + b))
  | .jnum a, .jbool b => .ok (.jnum (a + (if b then 1 else 0)))
  | .jbool a, .jbool b => .ok (.jnum ((if a then 1 else 0) + (if b then 1 else 0)))
  | _, _ => .error .typeError

/-- Python truthiness of a `json.loads` result: `None`-like null, `False`, `0`, the
empty string, the empty list and the empty dict are falsy. -/
def pyTruthy : JValue → Bool
  | .jnull => false
  | .jbool b => b
  | .jnum n => n != 0
  | .jstr s => s != ""
  | .jarr xs => !xs.isEmpty
  | .jobj fs => !fs.isEmpty

/-- Python `s.strip()` with no argument: remove leading and trailing whitespace. -/
def pyStrip (s : String) : String :=
  String.mk (((s.toList.dropWhile Char.isWhitespace).reverse.dropWhile
    Char.isWhitespace).reverse)

/-- `os.path.basename`: the part of the path after the last slash. -/
def basename (p : String) : String :=
  String.mk ((p.toList.reverse.takeWhile (fun c => ¬ (c = '/'))).reverse)

/-- Python `s.startswith(".")`. -/
def startsWithDot (s : String) : Bool :=
  match s.toList with
  | c :: _ => c = '.'
  | [] => false

/-- One character of `json.dumps` string escaping (the escapes exercised here;
`json.dumps` additionally escapes other control characters, unused below). -/
def escapeChar (c : Char) : String :=
  if c = '"' then "\\\""
  else if c = '\\' then "\\\\"
  else if c = '\n' then "\\n"
  else if c = '\t' then "\\t"
  else if c = '\r' then "\\r"
  else String.singleton c

/-- `json.dumps` of a Python string: double quotes around the escaped characters. -/
def jsonQuote (s : String) : String :=
  "\"" ++ String.join (s.toList.map escapeChar) ++ "\""

mutual

/-- `json.dumps` with default separators, as the stores use it to serialize list
fields into TEXT columns. -/
def JValue.dumps : JValue → String
  | .jnull => "null"
  | .jbool true => "true"
  | .jbool false => "false"
  | .jnum n => toString n
  | .jstr s => jsonQuote s
  | .jarr xs => "[" ++ dumpsArr xs ++ "]"
  | .jobj fs => "\x7b" ++ dumpsObj fs ++ "\x7d"

/-- Array elements of `json.dumps`, joined by a comma and a space. -/
def dumpsArr : List JValue → String
  | [] => ""
  | [x] => x.dumps
  | x :: y :: rest => x.dumps ++ ", " ++ dumpsArr (y :: rest)

/-- Object members of `json.dumps`, joined by a comma and a space. -/
def dumpsObj : List (String × JValue) → String
  | [] => ""
  | [(k, v)] => jsonQuote k ++ ": " ++ v.dumps
  | (k, v) :: p :: rest => jsonQuote k ++ ": " ++ v.dumps ++ ", " ++ dumpsObj (p :: rest)

end

/-- Drop leading JSON whitespace. -/
def skipWs : List Char → List Char
  | [] => []
  | c :: cs => if c.isWhitespace then skipWs cs else c :: cs

/-- Consume an expected literal character sequence. -/
def dropLit : List Char → List Char → Option (List Char)
  | [], cs => some cs
  | _ :: _, [] => none
  | l :: ls, c :: cs => if c = l then dropLit ls cs else none

/-- Parse the body of a JSON string after its opening quote. -/
def parseStr : List Char → Option (String × List Char)
  | [] => none
  | c :: cs =>
    if c = '"' then some ("", cs)
    else if c = '\\' then
      match cs with
      | [] => none
      | e :: cs2 =>
        let esc : Option Char :=
          if e = '"' then some '"'
          else if e = '\\' then some '\\'
          else if e = '/' then some '/'
          else if e = 'n' then some '\n'
          else if e = 't' then some '\t'
          else if e = 'r' then some '\r'
          else if e = 'b' then some (Char.ofNat 8)
          else if e = 'f' then some (Char.ofNat 12)
          else none
        match esc with
        | none => none
        | some ch =>
          match parseStr cs2 with
          | some (s, rest) => some (String.singleton ch ++ s, rest)
          | none => none
    else
      match parseStr cs with
      | some (s, rest) => some (String.singleton c ++ s, rest)
      | none => none

/-- Take a maximal run of decimal digits. -/
def takeDigits : List Char → List Char × List Char
  | [] => ([], [])
  | c :: cs =>
    if c.isDigit then
      let p := takeDigits cs
      (c :: p.1, p.2)
    else ([], c :: cs)

/-- Decimal digits to a natural number. -/
def digitsToNat (acc : Nat) : List Char → Nat
  | [] => acc
  | c :: cs => digitsToNat (acc * 10 + (c.toNat - 48)) cs

/-- Reject the continuation of a non-integer number (floats are outside the modelled
fragment; every payload in this development is float-free). -/
def intOk : List Char → Bool
  | [] => true
  | c :: _ => ¬ (c = '.' ∨ c = 'e' ∨ c = 'E')

/-- Recursive-descent JSON value parser on explicit fuel.  After an element and a
comma, the remainder of an array (resp. object) is parsed by re-entering the parser
on the remainder prefixed with an opening bracket (resp. brace), so the whole parser
is one structurally recursive function. -/
def parseVal : Nat → List Char → Option (JValue × List Char)
  | 0, _ => none
  | fuel + 1, cs =>
    match skipWs cs with
    | [] => none
    | c :: rest =>
      if c = 'n' then (dropLit ['u', 'l', 'l'] rest).map (fun r => (.jnull, r))
      else if c = 't' then (dropLit ['r', 'u', 'e'] rest).map (fun r => (.jbool true, r))
      else if c = 'f' then (dropLit ['a', 'l', 's', 'e'] rest).map (fun r => (.jbool false, r))
      else if c = '"' then (parseStr rest).map (fun p => (.jstr p.1, p.2))
      else if c = '[' then
        match skipWs rest with
        | [] => none
        | c2 :: r2 =>
          if c2 = ']' then some (.jarr [], r2)
          else
            match parseVal fuel (c2 :: r2) with
            | none => none
            | some (v, r3) =>
              match skipWs r3 with
              | [] => none
              | c4 :: r4 =>
                if c4 = ',' then
                  match parseVal fuel ('[' :: r4) with
                  | some (.jarr vs, r5) => some (.jarr (v :: vs), r5)
                  | _ => none
                else if c4 = ']' then some (.jarr [v], r4)
                else none
      else if c = lbrace then
        match skipWs rest with
        | [] => none
        | c2 :: r2 =>
          if c2 = rbrace then some (.jobj [], r2)
          else if c2 = '"' then
            match parseStr r2 with
            | none => none
            | some (k, r3) =>
              match skipWs r3 with
              | [] => none
              | c4 :: r4 =>
                if c4 = ':' then
                  match parseVal fuel r4 with
                  | none => none
                  | some (v, r5) =>
                    match skipWs r5 with
                    | [] => none
                    | c6 :: r6 =>
                      if c6 = ',' then
                        match parseVal fuel (lbrace :: r6) with
                        | some (.jobj fs2, r7) => some (.jobj ((k, v) :: fs2), r7)
                        | _ => none
                      else if c6 = rbrace then some (.jobj [(k, v)], r6)
                      else none
                else none
          else none
      else if c = '-' then
        match takeDigits rest with
        | ([], _) => none
        | (ds, r) => if intOk r then some (.jnum (-(digitsToNat 0 ds : Int)), r) else none
      else if c.isDigit then
        match takeDigits (c :: rest) with
        | (ds, r) => if intOk r then some (.jnum (digitsToNat 0 ds : Int), r) else none
      else none

/-- Python `json.loads`: parse one JSON value and require only trailing whitespace
after it; any other input raises `json.JSONDecodeError`, modelled as `none`. -/
def json_loads (s : String) : Option JValue :=
  match parseVal (s.length + 2) s.toList with
  | some (v, rest) => if (skipWs rest).isEmpty then some v else none
  | none => none

/-- Observable behavior of one `requests.post` to the analysis backend for a given
content: either the request layer raises `requests.exceptions.RequestException`
(connection failure, timeout, or the non-2xx `HTTPError` raised by
`raise_for_status`, which subclasses `RequestException`), or the call succeeds with a
2xx status and `response.json()` yields the given envelope value. -/
inductive BackendResp where
  | requestFailure
  | success (envelope : JValue)

/-- `analyze_content_with_llm`, defined identically (up to prompt text and timeout,
neither of which changes the result here) in `commit_analyzer.py` (lines 67-108),
`search.py` (lines 66-114) and `engine.py` (lines 63-108):

`json.loads(response.json().get("response", "\x7b\x7d"))` guarded by
`except requests.exceptions.RequestException` returning `None` (modelled `.ok none`).
`AttributeError` from `.get` on a non-dict envelope, `TypeError` from `json.loads` on
a non-string, and `json.JSONDecodeError` from an unparsable payload are not
`RequestException`s, so they escape this function. -/
def analyze_content_with_llm (backend : String → BackendResp) (content : String) :
    Except PyExc (Option JValue) :=
  match backend content with
  | .requestFailure => .ok none
  | .success env =>
    match pyGet env "response" (.jstr "\x7b\x7d") with
    | .error e => .error e
    | .ok (.jstr s) =>
      match json_loads s with
      | some v => .ok (some v)
      | none => .error .jsonDecodeError
    | .ok _ => .error .typeError

namespace CommitAnalyzer

/-- One row of the canonical nine-column `expertise_log` table of
`commit_analyzer.py` (minus the auto-increment id, assigned by `appendRow`): the four
list fields are stored as `json.dumps` TEXT, `analysis_summary` is bound as the raw
Python value. -/
structure CARow where
  user_id : String
  timestamp : String
  repo_name : String
  commit_hash : String
  primary_technologies : String
  supporting_libraries : String
  key_patterns_and_concepts : String
  inferred_skills : String
  analysis_summary : JValue

/-- `save_expertise` of `commit_analyzer.py` (lines 43-63): the row inserted for a
given analysis payload, with `now` the value of `time.strftime` at the moment of the
insert.  Each `.get(key, default)` call raises `AttributeError` when the payload is
not a dict; on a dict the five fields are read with their defaults and the list
fields serialized with `json.dumps`. -/
def save_expertise (user_id repo_name commit_hash now : String) (analysis : JValue) :
    Except PyExc CARow :=
  match analysis with
  | .jobj fs =>
    .ok ⟨user_id, now, repo_name, commit_hash,
      ((objLookup fs "primary_technologies").getD (.jarr [])).dumps,
      ((objLookup fs "supporting_libraries").getD (.jarr [])).dumps,
      ((objLookup fs "key_patterns_and_concepts").getD (.jarr [])).dumps,
      ((objLookup fs "inferred_skills").getD (.jarr [])).dumps,
      (objLookup fs "analysis_summary").getD (.jstr "")⟩
  | _ => .error .attributeError

/-- The `expertise_log` insert under `id INTEGER PRIMARY KEY AUTOINCREMENT` with a
single writer on the append-only table created by `init_database` (lines 21-41): on a
log holding rows with ids `1..n` (never deleted by this system), SQLite assigns the
next insert the id `n + 1`. -/
def appendRow (store : List CARow) (row : CARow) : Nat × List CARow :=
  (store.length + 1, store ++ [row])

/-- A sequence of single-writer inserts, returning the assigned ids in order. -/
def appendAll (store : List CARow) : List CARow → List Nat × List CARow
  | [] => ([], store)
  | r :: rs =>
    let p := appendRow store r
    let q := appendAll p.2 rs
    (p.1 :: q.1, q.2)

/-- Result of `get_git_info` (lines 110-128): it wraps all its subprocess and file
reads in one `except Exception` handler, returning either the four metadata strings
or `(None, None, None, None)` when anything failed. -/
inductive GitInfo where
  | failure
  | ok (diff message user_name repo_name : String)

/-- How one run of the `__main__` block of `commit_analyzer.py` (lines 131-153)
ends.  `crash e` is an exception escaping the script, which makes the interpreter
print a traceback and exit with a nonzero code; every other outcome reaches
`sys.exit(0)`. -/
inductive OneShotOutcome where
  | skippedEmpty
  | analysisFailed
  | saved
  | crash (e : PyExc)
deriving DecidableEq

/-- Whether the process exit code is 0 for this outcome. -/
def OneShotOutcome.exitsZero : OneShotOutcome → Bool
  | .crash _ => false
  | _ => true

/-- Observable trace of one run of the one-shot `__main__` block. -/
structure OneShotRun where
  analyzerCalls : Nat
  appended : List CARow
  outcome : OneShotOutcome

/-- The `__main__` block of `commit_analyzer.py` (lines 131-153).  `initOk` is
whether `init_database()` succeeds (a failing `sqlite3.connect` / `execute` raises
uncaught).  When `get_git_info` failed, `diff` is `None` and line 137 evaluates
`None.strip()`, raising an uncaught `AttributeError`.  Otherwise: skip (and
`sys.exit(0)`) when diff or message strips to empty; else analyze the combined
content; a truthy result is saved with the placeholder commit hash, a falsy result
(None from a caught request failure, or an empty parsed payload) only prints the
failure message; every exception out of the analysis or the save escapes the
script.  The final statement is `sys.exit(0)`. -/
def oneShot (initOk : Bool) (git : GitInfo) (backend : String → BackendResp)
    (now : String) : OneShotRun :=
  if initOk then
    match git with
    | .failure => ⟨0, [], .crash .attributeError⟩
    | .ok diff msg user repo =>
      if pyStrip diff = "" ∨ pyStrip msg = "" then ⟨0, [], .skippedEmpty⟩
      else
        match analyze_content_with_llm backend
            ("Commit Message:\n" ++ msg ++ "\n\nCode Diff:\n" ++ diff) with
        | .error e => ⟨1, [], .crash e⟩
        | .ok none => ⟨1, [], .analysisFailed⟩
        | .ok (some a) =>
          if pyTruthy a then
            match save_expertise user repo "pre-commit-analysis" now a with
            | .ok row => ⟨1, [row], .saved⟩
            | .error e => ⟨1, [], .crash e⟩
          else ⟨1, [], .analysisFailed⟩
  else ⟨0, [], .crash .sqliteError⟩

end CommitAnalyzer

/-- One row of the legacy three-column `expertise_log` table shared by `search.py`
and `engine.py`: the two list columns are stored as `json.dumps` TEXT, `summary` is
bound as the raw Python value. -/
structure WatchRow where
  user_id : String
  timestamp : String
  file_path : String
  technologies : String
  core_concepts : String
  summary : JValue

/-- How `on_modified` handled one delivered filesystem event. -/
inductive WatchOutcome where
  | skippedDirectory
  | skippedHidden
  | skippedEmpty
  | analysisDiscarded
  | saved
  | errorLogged (e : PyExc)
deriving DecidableEq

/-- Observable trace of one `on_modified` call. -/
structure WatchResult where
  analyzerCalls : Nat
  appended : List WatchRow
  outcome : WatchOutcome

/-- A filesystem notification as watchdog delivers it. -/
structure FSEvent where
  is_directory : Bool
  src_path : String

namespace Search

/-- `save_expertise` of `search.py` (lines 43-61): the five-field payload is
flattened into the legacy three-column shape —
`technologies := json.dumps(analysis.get('primary_technologies', []) +
analysis.get('supporting_libraries', []))` and
`core_concepts := json.dumps(analysis.get('key_patterns_and_concepts', []) +
analysis.get('inferred_skills', []))` — so a non-list value in any of the four
fields makes the `+` raise `TypeError` (unless both operands of a `+` happen to be
strings or numbers), and nothing is inserted.  `.get` on a non-dict payload raises
`AttributeError`. -/
def save_expertise (user_id file_path now : String) (analysis : JValue) :
    Except PyExc WatchRow :=
  match analysis with
  | .jobj fs =>
    match pyAdd ((objLookup fs "primary_technologies").getD (.jarr []))
        ((objLookup fs "supporting_libraries").getD (.jarr [])) with
    | .error e => .error e
    | .ok tech =>
      match pyAdd ((objLookup fs "key_patterns_and_concepts").getD (.jarr []))
          ((objLookup fs "inferred_skills").getD (.jarr [])) with
      | .error e => .error e
      | .ok cc =>
        .ok ⟨user_id, now, file_path, tech.dumps, cc.dumps,
          (objLookup fs "analysis_summary").getD (.jstr "")⟩
  | _ => .error .attributeError

/-- `MyEventHandler.on_modified` of `search.py` (lines 118-149).  `fs` is the
filesystem at the moment of the read (`none` means `open` raises, caught by the
handler's `except Exception`); `backend` the analysis backend; `login` the result of
`os.getlogin()`; `now` the write-time clock.  Directory events are ignored; a path
whose base name starts with a dot returns before the file is opened; empty stripped
content skips the analysis; a truthy analysis is saved; any exception from the read,
the analysis or the save is caught and logged, the event dropped. -/
def on_modified (fs : String → Option String) (backend : String → BackendResp)
    (login now : String) (event : FSEvent) : WatchResult :=
  if event.is_directory then ⟨0, [], .skippedDirectory⟩
  else if startsWithDot (basename event.src_path) then ⟨0, [], .skippedHidden⟩
  else
    match fs event.src_path with
    | none => ⟨0, [], .errorLogged .ioError⟩
    | some content =>
      if pyStrip content = "" then ⟨0, [], .skippedEmpty⟩
      else
        match analyze_content_with_llm backend content with
        | .error e => ⟨1, [], .errorLogged e⟩
        | .ok none => ⟨1, [], .analysisDiscarded⟩
        | .ok (some a) =>
          if pyTruthy a then
            match save_expertise login event.src_path now a with
            | .ok row => ⟨1, [row], .saved⟩
            | .error e => ⟨1, [], .errorLogged e⟩
          else ⟨1, [], .analysisDiscarded⟩

end Search

namespace Engine

/-- `save_expertise` of `engine.py` (lines 41-58): the legacy payload saved directly
into the legacy three-column shape, with `json.dumps` on the two list fields and
defaults for missing keys. -/
def save_expertise (user_id file_path now : String) (analysis : JValue) :
    Except PyExc WatchRow :=
  match analysis with
  | .jobj fs =>
    .ok ⟨user_id, now, file_path,
      ((objLookup fs "technologies").getD (.jarr [])).dumps,
      ((objLookup fs "core_concepts").getD (.jarr [])).dumps,
      (objLookup fs "summary").getD (.jstr "")⟩
  | _ => .error .attributeError

/-- `MyEventHandler.on_modified` of `engine.py` (lines 112-145): like the `search.py`
handler but with no hidden-file check — every non-directory event is read and, when
non-empty, analyzed and saved. -/
def on_modified (fs : String → Option String) (backend : String → BackendResp)
    (login now : String) (event : FSEvent) : WatchResult :=
  if event.is_directory then ⟨0, [], .skippedDirectory⟩
  else
    match fs event.src_path with
    | none => ⟨0, [], .errorLogged .ioError⟩
    | some content =>
      if pyStrip content = "" then ⟨0, [], .skippedEmpty⟩
      else
        match analyze_content_with_llm backend content with
        | .error e => ⟨1, [], .errorLogged e⟩
        | .ok none => ⟨1, [], .analysisDiscarded⟩
        | .ok (some a) =>
          if pyTruthy a then
            match save_expertise login event.src_path now a with
            | .ok row => ⟨1, [row], .saved⟩
            | .error e => ⟨1, [], .errorLogged e⟩
          else ⟨1, [], .analysisDiscarded⟩

end Engine

/-! ## Theorems for the claims -/

/-- A binding with a different key does not change a dict lookup. -/
theorem objLookup_cons_ne (fs : List (String × JValue)) (k key : String) (v : JValue)
    (h : ¬ k = key) : objLookup ((k, v) :: fs) key = objLookup fs key := by
  cases h2 : objLookup fs key with
  | some w => simp [objLookup, h2]
  | none => simp [objLookup, h2, h]

/-- C3 (counterexample): the claim says the store maps legacy field names so that
the stored `primaryTechnologies` equals the payload's `technologies` list.  On the
legacy two-field payload with `technologies = ["Python"]`, the canonical store of
`commit_analyzer.py` ignores every legacy key and stores empty defaults in all four
canonical list columns — and the watch store of `search.py` likewise stores `[]` in
its `technologies` column — so no legacy-to-canonical mapping exists. -/
theorem C3_legacy_mapping_cex :
    CommitAnalyzer.save_expertise "u" "repo" "h" "t"
        (.jobj [("technologies", .jarr [.jstr "Python"]), ("core_concepts", .jarr [.jstr "SQL"]),
          ("summary", .jstr "s")])
      = .ok ⟨"u", "t", "repo", "h", "[]", "[]", "[]", "[]", .jstr ""⟩ ∧
    ¬ ("[]" = (JValue.jarr [.jstr "Python"]).dumps) ∧
    Search.save_expertise "u" "/w/f.py" "t"
        (.jobj [("technologies", .jarr [.jstr "Python"]), ("core_concepts", .jarr [.jstr "SQL"]),
          ("summary", .jstr "s")])
      = .ok ⟨"u", "t", "/w/f.py", "[]", "[]", .jstr ""⟩ := by
  refine ⟨rfl, ?_, rfl⟩
  decide

/-- C3 (amended): there is no legacy-to-canonical mapping; the only cross-shape
mapping in the code goes the other way: `search.py` flattens the canonical
five-field payload into the legacy two-column schema by concatenation
(`technologies := primary_technologies ++ supporting_libraries`,
`core_concepts := key_patterns_and_concepts ++ inferred_skills`), while the
canonical store of `commit_analyzer.py` reads only canonical keys, so legacy
two-field payloads are stored with all four canonical list columns empty. -/
theorem C3_store_mapping_amended (pt sl kp sk t c : List JValue)
    (s u p r h now : String) :
    Search.save_expertise u p now
        (.jobj [("primary_technologies", .jarr pt), ("supporting_libraries", .jarr sl),
          ("key_patterns_and_concepts", .jarr kp), ("inferred_skills", .jarr sk),
          ("analysis_summary", .jstr s)])
      = .ok ⟨u, now, p, (JValue.jarr (pt ++ sl)).dumps, (JValue.jarr (kp ++ sk)).dumps,
          .jstr s⟩ ∧
    CommitAnalyzer.save_expertise u r h now
        (.jobj [("technologies", .jarr t), ("core_concepts", .jarr c), ("summary", .jstr s)])
      = .ok ⟨u, now, r, h, "[]", "[]", "[]", "[]", .jstr ""⟩ :=
  ⟨rfl, rfl⟩

/-- C7 (counterexample): the claim says that in watch mode every event whose base
name starts with the hidden-file marker is skipped unread.  The `engine.py` watch
handler has no hidden-file check: a change to `/w/.env` is read, analyzed (one
backend call) and appended (one record). -/
theorem C7_engine_hidden_processed_cex :
    startsWithDot (basename "/w/.env") = true ∧
    Engine.on_modified (fun _ => some "SECRET=1")
        (fun _ => .success (.jobj [("response", .jstr "\x7b\"summary\": \"s\"\x7d")]))
        "user" "t" ⟨false, "/w/.env"⟩
      = ⟨1, [⟨"user", "t", "/w/.env", "[]", "[]", .jstr "s"⟩], .saved⟩ :=
  ⟨rfl, rfl⟩

/-- C7 (amended): in the `search.py` watch handler, every non-directory event whose
base name starts with the hidden-file marker is skipped with the hidden-file skip
reason — zero backend calls, zero records — and the file is never read (the result
does not depend on the filesystem); the `engine.py` watch handler has no such
check. -/
theorem C7_hidden_skip_amended (fs fs2 : String → Option String)
    (backend : String → BackendResp) (login now : String) (event : FSEvent)
    (hdir : event.is_directory = false)
    (hhid : startsWithDot (basename event.src_path) = true) :
    Search.on_modified fs backend login now event = ⟨0, [], .skippedHidden⟩ ∧
    Search.on_modified fs backend login now event
      = Search.on_modified fs2 backend login now event := by
  unfold Search.on_modified
  rw [hdir, hhid]
  simp

/-- C7 witness for `C7_hidden_skip_amended` at the event `⟨false, "/w/.env"⟩`. -/
theorem C7_hidden_skip_amended_witness :
    Search.on_modified (fun _ => some "SECRET=1") (fun _ => .requestFailure) "u" "t"
        ⟨false, "/w/.env"⟩
      = ⟨0, [], .skippedHidden⟩ :=
  (C7_hidden_skip_amended (fun _ => some "SECRET=1") (fun _ => none)
    (fun _ => .requestFailure) "u" "t" ⟨false, "/w/.env"⟩ rfl rfl).1

/-- C10: `save_expertise` performs no type validation on payload fields: on the
payload binding `primary_technologies` to the string `"Python"`, the watch-mode
save of `search.py` raises `TypeError` (list concatenation `"Python" + []` fails)
and no record is written — the handler catches the exception and the event is
dropped with zero rows appended. -/
theorem C10_save_type_unchecked :
    Search.save_expertise "user" "/w/f.py" "t"
        (.jobj [("primary_technologies", .jstr "Python")])
      = .error .typeError ∧
    Search.on_modified (fun _ => some "code")
        (fun _ => .success (.jobj [("response",
          .jstr "\x7b\"primary_technologies\": \"Python\"\x7d")]))
        "user" "t" ⟨false, "/w/f.py"⟩
      = ⟨1, [], .errorLogged .typeError⟩ :=
  ⟨rfl, rfl⟩

/-- C1 (counterexample): the claim says a backend response whose embedded payload
string is not valid JSON yields an `AnalysisError` rather than raising an unhandled
fault into the Coordinator.  On the envelope with `response` bound to `"not json"`,
`analyze_content_with_llm` raises `json.JSONDecodeError` (its handler catches only
`requests.exceptions.RequestException`), and in one-shot mode that fault escapes the
coordinator: the process crashes after zero rows are appended. -/
theorem C1_malformed_payload_raises_cex :
    analyze_content_with_llm
        (fun _ => .success (.jobj [("response", .jstr "not json")])) "content"
      = .error .jsonDecodeError ∧
    CommitAnalyzer.oneShot true (.ok "d" "m" "u" "r")
        (fun _ => .success (.jobj [("response", .jstr "not json")])) "t"
      = ⟨1, [], .crash .jsonDecodeError⟩ ∧
    CommitAnalyzer.OneShotOutcome.exitsZero (.crash .jsonDecodeError) = false :=
  ⟨rfl, rfl, rfl⟩

/-- C1 (amended): for every backend response whose embedded payload string is not
valid JSON, the analyze operation raises `json.JSONDecodeError` (only
`RequestException` is caught), not an `AnalysisError` value: in one-shot mode the
fault escapes and crashes the process; in the watch handlers the Coordinator's
blanket `except Exception` catches it and drops the event.  In every mode zero
records are appended for that event. -/
theorem C1_malformed_payload_amended (s content u r login now : String)
    (hs : json_loads s = none) :
    analyze_content_with_llm (fun _ => .success (.jobj [("response", .jstr s)])) content
      = .error .jsonDecodeError ∧
    CommitAnalyzer.oneShot true (.ok "d" "m" u r)
        (fun _ => .success (.jobj [("response", .jstr s)])) now
      = ⟨1, [], .crash .jsonDecodeError⟩ ∧
    Search.on_modified (fun _ => some "code")
        (fun _ => .success (.jobj [("response", .jstr s)])) login now ⟨false, "f.py"⟩
      = ⟨1, [], .errorLogged .jsonDecodeError⟩ ∧
    Engine.on_modified (fun _ => some "code")
        (fun _ => .success (.jobj [("response", .jstr s)])) login now ⟨false, "f.py"⟩
      = ⟨1, [], .errorLogged .jsonDecodeError⟩ := by
  have hana : ∀ c : String, analyze_content_with_llm
      (fun _ => .success (.jobj [("response", .jstr s)])) c
      = .error .jsonDecodeError := by
    intro c
    simp [analyze_content_with_llm, pyGet, objLookup, hs]
  have h1 : startsWithDot (basename "f.py") = false := by decide
  have h2 : ¬ pyStrip "code" = "" := by decide
  have hskip : ¬ (pyStrip "d" = "" ∨ pyStrip "m" = "") := by decide
  refine ⟨hana content, ?_, ?_, ?_⟩
  · simp [CommitAnalyzer.oneShot, hskip, hana]
  · simp [Search.on_modified, h1, h2, hana]
  · simp [Engine.on_modified, h2, hana]

/-- C1 witness for `C1_malformed_payload_amended` at the payload `"not json"`. -/
theorem C1_malformed_payload_amended_witness :
    json_loads "not json" = none ∧
    CommitAnalyzer.oneShot true (.ok "d" "m" "u2" "r2")
        (fun _ => .success (.jobj [("response", .jstr "not json")])) "t2"
      = ⟨1, [], .crash .jsonDecodeError⟩ :=
  ⟨rfl, (C1_malformed_payload_amended "not json" "c" "u2" "r2" "lg" "t2" rfl).2.1⟩

/-- C2 (counterexample): the claim says one-shot mode exits 0 on every
source-metadata failure.  When `get_git_info` fails it returns `None`s, and
line 137 evaluates `None.strip()`: the run ends in an uncaught `AttributeError`
and the process exit code is nonzero, not 0. -/
theorem C2_source_failure_nonzero_exit_cex :
    CommitAnalyzer.oneShot true .failure (fun _ => .requestFailure) "t"
      = ⟨0, [], .crash .attributeError⟩ ∧
    CommitAnalyzer.OneShotOutcome.exitsZero (.crash .attributeError) = false :=
  ⟨rfl, rfl⟩

/-- C2 (amended): in one-shot mode the process exits 0 on the happy path, on the
empty-diff/message skip, and on analysis failures that the client itself catches
(request failures, where `analyze_content_with_llm` returns `None`); but when the
git metadata is unavailable it crashes with an uncaught `AttributeError`, and when
store init fails it crashes with the store exception — in both cases the exit code
is nonzero and the enclosing commit is blocked on a traceback rather than allowed
to proceed with exit 0. -/
theorem C2_exit_policy_amended (diff msg u r now : String)
    (backend : String → BackendResp)
    (hd : ¬ pyStrip diff = "") (hm : ¬ pyStrip msg = "") :
    CommitAnalyzer.oneShot true (.ok diff msg u r) (fun _ => .requestFailure) now
      = ⟨1, [], .analysisFailed⟩ ∧
    CommitAnalyzer.OneShotOutcome.exitsZero .analysisFailed = true ∧
    CommitAnalyzer.OneShotOutcome.exitsZero .skippedEmpty = true ∧
    (CommitAnalyzer.oneShot true .failure backend now).outcome = .crash .attributeError ∧
    (CommitAnalyzer.oneShot false (.ok diff msg u r) backend now).outcome
      = .crash .sqliteError ∧
    CommitAnalyzer.OneShotOutcome.exitsZero (.crash .attributeError) = false ∧
    CommitAnalyzer.OneShotOutcome.exitsZero (.crash .sqliteError) = false := by
  refine ⟨?_, rfl, rfl, rfl, rfl, rfl, rfl⟩
  have hskip : ¬ (pyStrip diff = "" ∨ pyStrip msg = "") := not_or.mpr ⟨hd, hm⟩
  simp [CommitAnalyzer.oneShot, analyze_content_with_llm, hskip]

/-- C2 witness for `C2_exit_policy_amended` at diff `"d"`, message `"m"`. -/
theorem C2_exit_policy_amended_witness :
    ¬ pyStrip "d" = "" ∧
    CommitAnalyzer.oneShot true (.ok "d" "m" "u" "r") (fun _ => .requestFailure) "t"
      = ⟨1, [], .analysisFailed⟩ :=
  ⟨by decide,
    (C2_exit_policy_amended "d" "m" "u" "r" "t" (fun _ => .requestFailure)
      (by decide) (by decide)).1⟩

/-- C5: in one-shot mode, if either the staged diff or the commit message strips to
empty, the run skips (the `SkipReason::Empty` outcome): the analysis client is never
called, no record is appended, and the process exits 0. -/
theorem C5_commit_skip_empty (diff msg u r now : String)
    (backend : String → BackendResp)
    (h : pyStrip diff = "" ∨ pyStrip msg = "") :
    CommitAnalyzer.oneShot true (.ok diff msg u r) backend now
      = ⟨0, [], .skippedEmpty⟩ ∧
    CommitAnalyzer.OneShotOutcome.exitsZero .skippedEmpty = true := by
  refine ⟨?_, rfl⟩
  simp [CommitAnalyzer.oneShot, h]

/-- C5 witness for `C5_commit_skip_empty`: a non-empty diff with an
all-whitespace commit message (Scenario E). -/
theorem C5_commit_skip_empty_witness :
    (pyStrip "diff --git a b" = "" ∨ pyStrip " \n" = "") ∧
    CommitAnalyzer.oneShot true (.ok "diff --git a b" " \n" "u" "r")
        (fun _ => .requestFailure) "t"
      = ⟨0, [], .skippedEmpty⟩ :=
  ⟨by decide,
    (C5_commit_skip_empty "diff --git a b" " \n" "u" "r" "t"
      (fun _ => .requestFailure) (by decide)).1⟩

/-- C9: if the backend's transport envelope lacks the `response` field (the code
then parses the default empty-object string) or its payload string parses to an
empty JSON object, the parsed result is the empty dict, which is falsy in Python:
both coordinators treat it as an analysis failure and discard it — no record is
appended, no defaulted record is stored. -/
theorem C9_empty_payload_discarded (fields : List (String × JValue))
    (diff msg u r login now : String)
    (h : objLookup fields "response" = none
      ∨ objLookup fields "response" = some (.jstr "\x7b\x7d"))
    (hd : ¬ pyStrip diff = "") (hm : ¬ pyStrip msg = "") :
    CommitAnalyzer.oneShot true (.ok diff msg u r)
        (fun _ => .success (.jobj fields)) now
      = ⟨1, [], .analysisFailed⟩ ∧
    Search.on_modified (fun _ => some "code") (fun _ => .success (.jobj fields))
        login now ⟨false, "f.py"⟩
      = ⟨1, [], .analysisDiscarded⟩ := by
  have hana : ∀ content : String,
      analyze_content_with_llm (fun _ => .success (.jobj fields)) content
        = .ok (some (.jobj [])) := by
    intro content
    rcases h with h | h <;> simp [analyze_content_with_llm, pyGet, h, json_loads,
      parseVal, skipWs, lbrace, rbrace]
  have hskip : ¬ (pyStrip diff = "" ∨ pyStrip msg = "") := not_or.mpr ⟨hd, hm⟩
  have h1 : startsWithDot (basename "f.py") = false := by decide
  have h2 : ¬ pyStrip "code" = "" := by decide
  have h3 : pyTruthy (.jobj []) = false := rfl
  constructor
  · simp [CommitAnalyzer.oneShot, hskip, hana, h3]
  · simp [Search.on_modified, h1, h2, hana, h3]

/-- C9 witness for `C9_empty_payload_discarded`: an envelope with no `response`
field. -/
theorem C9_empty_payload_discarded_witness :
    objLookup [("model", JValue.jstr "mistral")] "response" = none ∧
    CommitAnalyzer.oneShot true (.ok "d9" "m9" "u" "r")
        (fun _ => .success (.jobj [("model", .jstr "mistral")])) "t"
      = ⟨1, [], .analysisFailed⟩ :=
  ⟨rfl,
    (C9_empty_payload_discarded [("model", .jstr "mistral")] "d9" "m9" "u" "r" "lg" "t"
      (Or.inl rfl) (by decide) (by decide)).1⟩

/-- C4: for every analyzer payload that is a JSON object, the row built by the
canonical store defaults each absent list field to the empty JSON array, defaults an
absent summary to the empty string, and ignores unexpected extra fields (adding a
binding under any non-canonical key leaves the stored row unchanged). -/
theorem C4_field_coercion (fs : List (String × JValue)) (u r hsh now k : String)
    (v : JValue) (row : CommitAnalyzer.CARow)
    (hrow : CommitAnalyzer.save_expertise u r hsh now (.jobj fs) = .ok row) :
    (objLookup fs "primary_technologies" = none → row.primary_technologies = "[]") ∧
    (objLookup fs "supporting_libraries" = none → row.supporting_libraries = "[]") ∧
    (objLookup fs "key_patterns_and_concepts" = none →
      row.key_patterns_and_concepts = "[]") ∧
    (objLookup fs "inferred_skills" = none → row.inferred_skills = "[]") ∧
    (objLookup fs "analysis_summary" = none → row.analysis_summary = .jstr "") ∧
    (¬ k = "primary_technologies" → ¬ k = "supporting_libraries" →
      ¬ k = "key_patterns_and_concepts" → ¬ k = "inferred_skills" →
      ¬ k = "analysis_summary" →
      CommitAnalyzer.save_expertise u r hsh now (.jobj ((k, v) :: fs)) = .ok row) := by
  unfold CommitAnalyzer.save_expertise at hrow
  injection hrow with hrow
  refine ⟨?_, ?_, ?_, ?_, ?_, ?_⟩
  · intro hnone
    rw [← hrow, hnone]
    rfl
  · intro hnone
    rw [← hrow, hnone]
    rfl
  · intro hnone
    rw [← hrow, hnone]
    rfl
  · intro hnone
    rw [← hrow, hnone]
    rfl
  · intro hnone
    rw [← hrow, hnone]
    rfl
  · intro h1 h2 h3 h4 h5
    simp only [CommitAnalyzer.save_expertise]
    rw [objLookup_cons_ne fs k "primary_technologies" v h1,
      objLookup_cons_ne fs k "supporting_libraries" v h2,
      objLookup_cons_ne fs k "key_patterns_and_concepts" v h3,
      objLookup_cons_ne fs k "inferred_skills" v h4,
      objLookup_cons_ne fs k "analysis_summary" v h5, hrow]

/-- C4 witness for `C4_field_coercion` at the payload holding only a summary, with
the extra key `"extra"`. -/
theorem C4_field_coercion_witness :
    CommitAnalyzer.save_expertise "u" "r" "h" "t" (.jobj [("analysis_summary", .jstr "s")])
      = .ok ⟨"u", "t", "r", "h", "[]", "[]", "[]", "[]", .jstr "s"⟩ ∧
    objLookup [("analysis_summary", JValue.jstr "s")] "primary_technologies" = none ∧
    (⟨"u", "t", "r", "h", "[]", "[]", "[]", "[]",
      .jstr "s"⟩ : CommitAnalyzer.CARow).primary_technologies = "[]" ∧
    CommitAnalyzer.save_expertise "u" "r" "h" "t"
        (.jobj [("extra", .jnum 1), ("analysis_summary", .jstr "s")])
      = .ok ⟨"u", "t", "r", "h", "[]", "[]", "[]", "[]", .jstr "s"⟩ := by
  have h := C4_field_coercion [("analysis_summary", .jstr "s")] "u" "r" "h" "t" "extra"
    (.jnum 1) ⟨"u", "t", "r", "h", "[]", "[]", "[]", "[]", .jstr "s"⟩ rfl
  exact ⟨rfl, rfl, h.1 rfl,
    h.2.2.2.2.2 (by decide) (by decide) (by decide) (by decide) (by decide)⟩

/-- C6: for every delivered watch-mode event, in both watch handlers, `append` runs
0 or 1 times; a record is appended only on the saved outcome (never for a skip);
and for a file whose stripped content is empty there are zero backend calls and
zero records appended. -/
theorem C6_append_at_most_once (fs : String → Option String)
    (backend : String → BackendResp) (login now : String) (event : FSEvent) :
    (Search.on_modified fs backend login now event).appended.length ≤ 1 ∧
    (Engine.on_modified fs backend login now event).appended.length ≤ 1 ∧
    ((Search.on_modified fs backend login now event).appended ≠ [] →
      (Search.on_modified fs backend login now event).outcome = .saved) ∧
    ((Engine.on_modified fs backend login now event).appended ≠ [] →
      (Engine.on_modified fs backend login now event).outcome = .saved) ∧
    (∀ c, fs event.src_path = some c → pyStrip c = "" →
      (Search.on_modified fs backend login now event).analyzerCalls = 0 ∧
      (Search.on_modified fs backend login now event).appended = [] ∧
      (Engine.on_modified fs backend login now event).analyzerCalls = 0 ∧
      (Engine.on_modified fs backend login now event).appended = []) := by
  refine ⟨?_, ?_, ?_, ?_, ?_⟩
  · unfold Search.on_modified
    repeat' split
    all_goals simp
  · unfold Engine.on_modified
    repeat' split
    all_goals simp
  · unfold Search.on_modified
    repeat' split
    all_goals simp
  · unfold Engine.on_modified
    repeat' split
    all_goals simp
  · intro c hc hstrip
    unfold Search.on_modified Engine.on_modified
    simp only [hc]
    repeat' split
    all_goals simp_all

/-- C6 witness for `C6_append_at_most_once`: a whitespace-only file gives zero
calls and zero appends, and an appended record implies the saved outcome. -/
theorem C6_append_at_most_once_witness :
    ((Search.on_modified (fun _ => some " \n") (fun _ => .requestFailure) "u" "t"
        ⟨false, "f.py"⟩).analyzerCalls = 0 ∧
      (Search.on_modified (fun _ => some " \n") (fun _ => .requestFailure) "u" "t"
        ⟨false, "f.py"⟩).appended = [] ∧
      (Engine.on_modified (fun _ => some " \n") (fun _ => .requestFailure) "u" "t"
        ⟨false, "f.py"⟩).analyzerCalls = 0 ∧
      (Engine.on_modified (fun _ => some " \n") (fun _ => .requestFailure) "u" "t"
        ⟨false, "f.py"⟩).appended = []) ∧
    (Engine.on_modified (fun _ => some "x")
        (fun _ => .success (.jobj [("response", .jstr "\x7b\"summary\": \"s\"\x7d")]))
        "u" "t" ⟨false, "g.py"⟩).outcome = .saved := by
  constructor
  · exact (C6_append_at_most_once (fun _ => some " \n") (fun _ => .requestFailure)
      "u" "t" ⟨false, "f.py"⟩).2.2.2.2 " \n" rfl (by decide)
  · have hne : (Engine.on_modified (fun _ => some "x")
        (fun _ => .success (.jobj [("response", .jstr "\x7b\"summary\": \"s\"\x7d")]))
        "u" "t" ⟨false, "g.py"⟩).appended
        = [⟨"u", "t", "g.py", "[]", "[]", .jstr "s"⟩] := rfl
    exact (C6_append_at_most_once (fun _ => some "x")
      (fun _ => .success (.jobj [("response", .jstr "\x7b\"summary\": \"s\"\x7d")]))
      "u" "t" ⟨false, "g.py"⟩).2.2.2.1
      (by rw [hne]; exact List.cons_ne_nil _ _)

/-- Ids assigned by a run of single-writer appends are the consecutive integers
starting just above the current size of the log. -/
theorem appendAll_ids (store : List CommitAnalyzer.CARow)
    (rs : List CommitAnalyzer.CARow) :
    (CommitAnalyzer.appendAll store rs).1
      = List.range' (store.length + 1) rs.length := by
  induction rs generalizing store with
  | nil => rfl
  | cons a rs ih =>
    simp [CommitAnalyzer.appendAll, CommitAnalyzer.appendRow, ih, List.range']

/-- C8: for any sequence of N successful appends under single-writer operation the
returned ids are consecutive — `store.length + 1, …, store.length + N` (from an
empty log: `1..N`), strictly increasing with no gaps — and the timestamp of every
row built by `save_expertise` is the write-time clock value passed at the insert,
independent of the analysis payload. -/
theorem C8_ids_monotone_timestamp (store rs : List CommitAnalyzer.CARow)
    (u r hsh now : String) (a : JValue) (row : CommitAnalyzer.CARow)
    (hsave : CommitAnalyzer.save_expertise u r hsh now a = .ok row) :
    (CommitAnalyzer.appendAll store rs).1
      = List.range' (store.length + 1) rs.length ∧
    row.timestamp = now := by
  refine ⟨appendAll_ids store rs, ?_⟩
  cases a with
  | jobj fs =>
    unfold CommitAnalyzer.save_expertise at hsave
    injection hsave with hsave
    rw [← hsave]
  | jnull => unfold CommitAnalyzer.save_expertise at hsave; simp at hsave
  | jbool b => unfold CommitAnalyzer.save_expertise at hsave; simp at hsave
  | jnum n => unfold CommitAnalyzer.save_expertise at hsave; simp at hsave
  | jstr s => unfold CommitAnalyzer.save_expertise at hsave; simp at hsave
  | jarr xs => unfold CommitAnalyzer.save_expertise at hsave; simp at hsave

/-- C8 witness for `C8_ids_monotone_timestamp`: two appends on the empty log get
ids 1 and 2, and the row saved at clock `"t"` carries timestamp `"t"`. -/
theorem C8_ids_monotone_timestamp_witness :
    (CommitAnalyzer.appendAll []
        [⟨"u", "t", "r", "h", "[]", "[]", "[]", "[]", .jstr ""⟩,
          ⟨"u", "t", "r", "h", "[]", "[]", "[]", "[]", .jstr ""⟩]).1
      = [1, 2] ∧
    (⟨"u", "t", "r", "h", "[]", "[]", "[]", "[]",
      .jstr ""⟩ : CommitAnalyzer.CARow).timestamp = "t" := by
  have h := C8_ids_monotone_timestamp []
    [⟨"u", "t", "r", "h", "[]", "[]", "[]", "[]", .jstr ""⟩,
      ⟨"u", "t", "r", "h", "[]", "[]", "[]", "[]", .jstr ""⟩]
    "u" "r" "h" "t" (.jobj [])
    ⟨"u", "t", "r", "h", "[]", "[]", "[]", "[]", .jstr ""⟩ rfl
  exact ⟨h.1, h.2⟩

end Turbotise
